import Mathlib

/-!
Shallow embedding of the MediaMTX metrics exporter.

The repository ships two deployable variants of the same exporter:

* variant A, `src/mediamtx-exporter.py` (authenticated upstream): a fetcher that
  probes an ordered list of credential candidates, a parser that only handles
  unlabeled `name value` lines, and a serializer that always emits a
  HELP/TYPE/value triple per sample;
* variant B, `src/mediamtx-exporter/mediamtx-exporter.py` (externally
  authenticated upstream): a single unauthenticated GET, a parser that also
  handles labeled `name{...} value` lines (keyed by the full line), and a
  serializer that re-emits labeled keys verbatim.

Pure string processing is embedded directly; the HTTP layer is embedded by
passing the per-attempt outcome of `session.get` + `raise_for_status` as an
explicit function argument.
-/

set_option maxRecDepth 100000

namespace MediaMTX

/-- Characters Python's `str.strip` / `str.split` treat as whitespace
(ASCII fragment: space, tab, newline, carriage return, vertical tab, form feed). -/
def pyWs (c : Char) : Bool :=
  c = ' ' || c = '\t' || c = '\n' || c = '\r' || c = '\x0b' || c = '\x0c'

/-- Python `str.strip()` on a character list: drop whitespace from both ends. -/
def pyStripL (cs : List Char) : List Char :=
  ((cs.dropWhile pyWs).reverse.dropWhile pyWs).reverse

/-- Python `str.strip()`. -/
def pyStrip (s : String) : String :=
  (pyStripL s.toList).asString

/-- Helper for `pySplitlines`: accumulate the current line (reversed) and cut at
line terminators, recognising `\n`, `\r\n` and `\r` as Python `splitlines` does. -/
def pySplitlinesAux : List Char → List Char → List String
  | [], acc => if acc.isEmpty then [] else [acc.reverse.asString]
  | '\r' :: '\n' :: rest, acc => acc.reverse.asString :: pySplitlinesAux rest []
  | '\n' :: rest, acc => acc.reverse.asString :: pySplitlinesAux rest []
  | '\r' :: rest, acc => acc.reverse.asString :: pySplitlinesAux rest []
  | c :: rest, acc => pySplitlinesAux rest (c :: acc)

/-- Python `str.splitlines()` (no trailing empty line for a trailing terminator). -/
def pySplitlines (s : String) : List String :=
  pySplitlinesAux s.toList []

/-- Helper for `pySplit`: split on runs of whitespace, dropping empty pieces. -/
def pySplitAux : List Char → List Char → List String
  | [], acc => if acc.isEmpty then [] else [acc.reverse.asString]
  | c :: rest, acc =>
    if pyWs c then
      if acc.isEmpty then pySplitAux rest [] else acc.reverse.asString :: pySplitAux rest []
    else pySplitAux rest (c :: acc)

/-- Python `str.split()` with no separator argument: split on whitespace runs. -/
def pySplit (s : String) : List String :=
  pySplitAux s.toList []

/-- Python `line.startswith("#")`: true exactly when the first character is `#`. -/
def startsWithHash (s : String) : Bool :=
  match s.toList with
  | '#' :: _ => true
  | _ => false

/-- Digit run as CPython's float grammar accepts it: a digit followed by digits
or single underscores that sit between two digits (`1_0` is valid, `1__0`,
`_1`, `1_` are not). -/
def digRunAux : List Char → Bool
  | [] => true
  | '_' :: c :: cs => c.isDigit && digRunAux cs
  | '_' :: [] => false
  | c :: cs => c.isDigit && digRunAux cs

/-- Nonempty digit run with optional internal underscores. -/
def digRun : List Char → Bool
  | [] => false
  | c :: cs => c.isDigit && digRunAux cs

/-- Mantissa of a CPython float literal: `digits`, `digits.`, `.digits` or
`digits.digits`. -/
def floatMantissa (cs : List Char) : Bool :=
  match cs.findIdx? (· = '.') with
  | none => digRun cs
  | some i =>
    let a := cs.take i
    let b := cs.drop (i + 1)
    (a.isEmpty && digRun b) || (digRun a && b.isEmpty) || (digRun a && digRun b)

/-- Exponent digits of a CPython float literal: optional sign then a digit run. -/
def floatExpDigits (cs : List Char) : Bool :=
  match cs with
  | '+' :: rest => digRun rest
  | '-' :: rest => digRun rest
  | _ => digRun cs

/-- Body of a CPython float literal after stripping and sign: `inf`,
`infinity`, `nan` (case-insensitive) or mantissa with optional exponent. -/
def floatBody (cs : List Char) : Bool :=
  let low := cs.map Char.toLower
  if low = "inf".toList || low = "infinity".toList || low = "nan".toList then true
  else
    match low.findIdx? (· = 'e') with
    | none => floatMantissa low
    | some i => floatMantissa (low.take i) && floatExpDigits (low.drop (i + 1))

/-- Model of CPython's `float(s)` acceptance: surrounding whitespace stripped,
optional sign, then `inf` / `infinity` / `nan` or a decimal literal with
optional exponent and underscores between digits. `True` means `float(s)`
succeeds, `False` means it raises `ValueError`. -/
def pyFloatAccepts (s : String) : Bool :=
  match pyStripL s.toList with
  | '+' :: rest => floatBody rest
  | '-' :: rest => floatBody rest
  | cs => floatBody cs

/-- SampleValue: the parser stores `float(value)` when the conversion succeeds,
else the raw value text. A successfully parsed float is abstracted by the
source text it was parsed from (its IEEE-754 payload is never compared or
printed digit-for-digit by any property below). -/
inductive SampleValue where
  | num (src : String)
  | str (s : String)
deriving DecidableEq, Repr

/-- The `try: float(value) except ValueError: value` pattern of both parsers. -/
def pyValue (v : String) : SampleValue :=
  if pyFloatAccepts v then .num v else .str v

/-- Snapshot: the `metrics_data` Python dict, as an insertion-ordered
association list with unique keys (Python 3.7+ dict semantics). -/
abbrev Snapshot := List (String × SampleValue)

/-- Python `d[k] = v`: update in place if the key exists (keeping its
position), else append. -/
def dictInsert (k : String) (v : SampleValue) (d : Snapshot) : Snapshot :=
  if (List.any d fun p => p.1 = k) then
    List.map (fun p => if p.1 = k then (k, v) else p) d
  else
    d ++ [(k, v)]

/-- Python `d.get(k)`. -/
def dictGet (k : String) (d : Snapshot) : Option SampleValue :=
  (List.find? (fun p => p.1 = k) d).map (fun p => p.2)

/-- Variant A per-line parse (`src/mediamtx-exporter.py`, update_metrics loop):
strip the line; skip comments and blanks; split on whitespace; exactly two
tokens gives a sample `(key, float-or-raw value)`, anything else is skipped.
There is no labeled-line handling in this variant. -/
def lineSampleA (line0 : String) : Option (String × SampleValue) :=
  let line := pyStrip line0
  if startsWithHash line = true ∨ line = "" then none
  else
    match pySplit line with
    | [k, v] => some (k, pyValue v)
    | _ => none

/-- Variant B per-line parse (`src/mediamtx-exporter/mediamtx-exporter.py`,
update_metrics loop): strip the line; skip comments and blanks; if the line
contains both a `\x7b` and a `\x7d`, take the index of the first `\x7b`
(`metric_start`) and of the first `\x7d` (`metric_end`); when
`metric_start > 0` and `metric_end > metric_start` and the text after
`metric_end` strips to something non-empty, store the FULL stripped line as
the key with the float-or-raw value; otherwise skip. Lines without a brace
pair go through the same two-token split as variant A. -/
def lineSampleB (line0 : String) : Option (String × SampleValue) :=
  let line := pyStrip line0
  if startsWithHash line = true ∨ line = "" then none
  else if '\x7b' ∈ line.toList ∧ '\x7d' ∈ line.toList then
    let ms := line.toList.findIdx (· = '\x7b')
    let me := line.toList.findIdx (· = '\x7d')
    if 0 < ms ∧ ms < me then
      let valuePart := (pyStripL (line.toList.drop (me + 1))).asString
      if valuePart = "" then none
      else some (line, pyValue valuePart)
    else none
  else
    match pySplit line with
    | [k, v] => some (k, pyValue v)
    | _ => none

/-- One iteration of the parse loop shared by both variants: insert the
sample into the dict when the line yields one, else leave the dict unchanged. -/
def parseStep (f : String → Option (String × SampleValue)) (d : Snapshot) (l : String) : Snapshot :=
  match f l with
  | some (k, v) => dictInsert k v d
  | none => d

/-- The shared parse loop of both variants: fold the per-line parse over the
lines, starting from the empty dict. -/
def parseLinesWith (f : String → Option (String × SampleValue)) (ls : List String) : Snapshot :=
  ls.foldl (parseStep f) []

/-- Variant A parser: `update_metrics` body applied to fetched text. -/
def parseA (text : String) : Snapshot :=
  parseLinesWith lineSampleA (pySplitlines text)

/-- Variant B parser. -/
def parseB (text : String) : Snapshot :=
  parseLinesWith lineSampleB (pySplitlines text)

/-- The `metric_name.replace("-", "_").replace(".", "_")` cleanup of both
serializers. -/
def sanitize (s : String) : String :=
  (s.toList.map (fun c => if c = '-' || c = '.' then '_' else c)).asString

/-- The fixed stanza both variants return for an empty `metrics_data`
(the triple-quoted literal in `get_prometheus_metrics`, identical in both
files). -/
def downStanza : String :=
  "# MediaMTX metrics exported by mediamtx-exporter\n# HELP mediamtx_exporter_up Exporter status (1=up, 0=down)\n# TYPE mediamtx_exporter_up gauge\nmediamtx_exporter_up 0\n# HELP mediamtx_exporter_scrape_duration_seconds Time spent scraping MediaMTX\n# TYPE mediamtx_exporter_scrape_duration_seconds gauge\nmediamtx_exporter_scrape_duration_seconds 0\n"

/-- The header both variants emit before the samples of a non-empty
`metrics_data`. -/
def upHeader : String :=
  "# MediaMTX metrics exported by mediamtx-exporter\n# HELP mediamtx_exporter_up Exporter status (1=up, 0=down)\n# TYPE mediamtx_exporter_up gauge\nmediamtx_exporter_up 1\n"

/-- Text emitted for a sample value by the f-string `f"... \x7bvalue\x7d"`.
For the raw-string fallback CPython prints the string itself; for a parsed
float CPython prints the shortest round-tripping decimal of the IEEE-754
double, which this embedding abstracts by the text the double was parsed from
(no property proved below depends on the printed digits of a float value). -/
def renderValue : SampleValue → String
  | .num src => src
  | .str s => s

/-- The HELP/TYPE/value triple emitted for one sample by variant A's
serializer, and by variant B's serializer for unlabeled keys. -/
def helpTypeTriple (k : String) (v : SampleValue) : String :=
  "# HELP " ++ sanitize k ++ " MediaMTX metric: " ++ k ++ "\n" ++
  "# TYPE " ++ sanitize k ++ " gauge\n" ++
  sanitize k ++ " " ++ renderValue v ++ "\n"

/-- The `metrics_text += ...` accumulation over the samples. -/
def concatBlocks : List String → String
  | [] => ""
  | s :: rest => s ++ concatBlocks rest

/-- Variant A `get_prometheus_metrics`: down stanza on empty data, else the
up header followed by a HELP/TYPE/value triple for every sample, in dict
iteration (insertion) order. No verbatim path exists in this variant. -/
def get_prometheus_metricsA (d : Snapshot) : String :=
  if d.isEmpty then downStanza
  else upHeader ++ concatBlocks (d.map fun p => helpTypeTriple p.1 p.2)

/-- The per-sample text of variant B's serializer loop: a key containing both
braces is emitted verbatim as its own line, anything else gets the
HELP/TYPE/value triple. -/
def sampleBlockB (k : String) (v : SampleValue) : String :=
  if '\x7b' ∈ k.toList ∧ '\x7d' ∈ k.toList then k ++ "\n"
  else helpTypeTriple k v

/-- Variant B `get_prometheus_metrics`. -/
def get_prometheus_metricsB (d : Snapshot) : String :=
  if d.isEmpty then downStanza
  else upHeader ++ concatBlocks (d.map fun p => sampleBlockB p.1 p.2)

/-- Outcome of one `session.get(...)` followed by `response.raise_for_status()`,
as distinguished by the `except` arms of `fetch_real_metrics`: a 200-class
response with its body, an HTTPError with its status code, a Timeout, a
ConnectionError, another RequestException, or any other exception. -/
inductive AttemptResult where
  | ok (body : String)
  | httpError (status : Nat)
  | timeout
  | connectionError
  | requestError
  | otherError
deriving DecidableEq, Repr

/-- True exactly when the attempt returned a body (no exception raised). -/
def AttemptResult.isOk : AttemptResult → Bool
  | .ok _ => true
  | _ => false

/-- The ordered credential candidate list of variant A's `fetch_real_metrics`
(`None` = no auth, first). -/
def authMethods : List (Option (String × String)) :=
  [none,
   some ("admin", "admin"),
   some ("mediamtx", "mediamtx"),
   some ("root", "root"),
   some ("admin", ""),
   some ("", "")]

/-- The `for auth in auth_methods` loop of variant A's `fetch_real_metrics`:
return the body on success; every `except` arm (401 or any other HTTPError,
Timeout, ConnectionError, RequestException, Exception) executes `continue`;
falling off the loop returns the empty string. `respond` gives the outcome of
the GET for each credential candidate. -/
def probe (respond : Option (String × String) → AttemptResult) :
    List (Option (String × String)) → String
  | [] => ""
  | a :: rest =>
    match respond a with
    | .ok body => body
    | _ => probe respond rest

/-- Variant A `fetch_real_metrics`. -/
def fetch_real_metricsA (respond : Option (String × String) → AttemptResult) : String :=
  probe respond authMethods

/-- Per-attempt timeout of variant A's GET (`timeout=2` in
`src/mediamtx-exporter.py`). -/
def requestTimeoutA : Nat := 2

/-- Per-attempt timeout of variant B's GET (`timeout=10` in
`src/mediamtx-exporter/mediamtx-exporter.py`). -/
def requestTimeoutB : Nat := 10

/-- The state transition of `update_metrics` on the fetched text, common shape
of both variants: empty text clears `metrics_data` to the empty dict, anything
else replaces it wholesale with the freshly parsed dict. The parsed dict is
built locally and assigned in one step; the old snapshot is never consulted. -/
def update_from_text (parse : String → Snapshot) (text : String) (_old : Snapshot) : Snapshot :=
  if text = "" then [] else parse text

/-- Variant A `update_metrics`: fetch then parse-and-replace. -/
def update_metricsA (respond : Option (String × String) → AttemptResult)
    (old : Snapshot) : Snapshot :=
  update_from_text parseA (fetch_real_metricsA respond) old

/-- An HTTP reply of the exporter's own server: status code and body text. -/
structure HttpReply where
  status : Nat
  body : String
deriving DecidableEq, Repr

/-- Variant A `MetricsHandler.do_GET`: `/metrics` sends 200, runs
`update_metrics`, and writes the rendered snapshot; `/health` sends 200 `OK`;
anything else sends 404 with empty body. Returns the reply together with the
exporter state after the request. -/
def do_GETA (respond : Option (String × String) → AttemptResult)
    (st : Snapshot) (path : String) : HttpReply × Snapshot :=
  if path = "/metrics" then
    let st2 := update_metricsA respond st
    (⟨200, get_prometheus_metricsA st2⟩, st2)
  else if path = "/health" then (⟨200, "OK"⟩, st)
  else (⟨404, ""⟩, st)

/-! Helper lemmas about the dict operations and the parse fold. -/

theorem mem_dictInsert {p : String × SampleValue} {k : String} {v : SampleValue}
    {d : Snapshot} (h : p ∈ dictInsert k v d) : p ∈ d ∨ p = (k, v) := by
  unfold dictInsert at h
  split at h
  · rcases List.mem_map.mp h with ⟨q, hq, he⟩
    by_cases hk : q.1 = k
    · right
      rw [if_pos hk] at he
      exact he.symm
    · left
      rw [if_neg hk] at he
      exact he ▸ hq
  · rcases List.mem_append.mp h with h1 | h1
    · exact Or.inl h1
    · exact Or.inr (by simpa using h1)

theorem find_key_map_ne (k k' : String) (v : SampleValue) (d : Snapshot) (h : k' ≠ k) :
    List.find? (fun q => q.1 = k) (d.map fun q => if q.1 = k' then (k', v) else q)
      = List.find? (fun q => q.1 = k) d := by
  induction d with
  | nil => rfl
  | cons q rest ih =>
    by_cases hq : q.1 = k'
    · have hqk : ¬ (q.1 = k) := by rw [hq]; exact h
      simp only [List.map_cons, if_pos hq, List.find?_cons]
      rw [decide_eq_false h, decide_eq_false hqk]
      exact ih
    · simp only [List.map_cons, if_neg hq, List.find?_cons]
      cases hqk : decide (q.1 = k)
      · exact ih
      · rfl

theorem find_map_overwrite (k' : String) (v : SampleValue) (d : Snapshot)
    (h : List.any d (fun q => q.1 = k') = true) :
    List.find? (fun q => q.1 = k') (d.map fun q => if q.1 = k' then (k', v) else q)
      = some (k', v) := by
  induction d with
  | nil => simp at h
  | cons q rest ih =>
    by_cases hq : q.1 = k'
    · simp only [List.map_cons, if_pos hq, List.find?_cons]
      simp
    · have h' : List.any rest (fun q => q.1 = k') = true := by
        simpa [List.any_cons, hq] using h
      simp only [List.map_cons, if_neg hq, List.find?_cons, decide_eq_false hq]
      exact ih h'

theorem find_none_of_any_false (k : String) (d : Snapshot)
    (h : List.any d (fun q => q.1 = k) = false) :
    List.find? (fun q => q.1 = k) d = none := by
  induction d with
  | nil => rfl
  | cons q rest ih =>
    have hq : ¬ (q.1 = k) := by
      intro he
      simp [List.any_cons, he] at h
    have h' : List.any rest (fun q => q.1 = k) = false := by
      simpa [List.any_cons, hq] using h
    simp only [List.find?_cons, decide_eq_false hq]
    exact ih h'

theorem dictGet_dictInsert (k k' : String) (v : SampleValue) (d : Snapshot) :
    dictGet k (dictInsert k' v d) = if k' = k then some v else dictGet k d := by
  unfold dictInsert
  cases hany : List.any d (fun p => p.1 = k') with
  | true =>
    rw [if_pos rfl]
    by_cases hkk : k' = k
    · subst hkk
      rw [if_pos rfl]
      unfold dictGet
      rw [find_map_overwrite k' v d hany]
      rfl
    · rw [if_neg hkk]
      unfold dictGet
      rw [find_key_map_ne k k' v d hkk]
  | false =>
    rw [if_neg Bool.false_ne_true]
    by_cases hkk : k' = k
    · subst hkk
      rw [if_pos rfl]
      unfold dictGet
      rw [List.find?_append, find_none_of_any_false k' d hany]
      simp [List.find?]
    · rw [if_neg hkk]
      unfold dictGet
      rw [List.find?_append]
      have h1 : List.find? (fun q => q.1 = k) [(k', v)] = none := by
        simp [List.find?, hkk]
      rw [h1]
      cases List.find? (fun q => q.1 = k) d <;> rfl

theorem dictGet_dictInsert_self (k : String) (v : SampleValue) (d : Snapshot) :
    dictGet k (dictInsert k v d) = some v := by
  rw [dictGet_dictInsert, if_pos rfl]

theorem dictGet_foldl_no_key (f : String → Option (String × SampleValue))
    (k : String) (v : SampleValue) (suf : List String) :
    ∀ d : Snapshot, dictGet k d = some v → (∀ l ∈ suf, ∀ w, f l ≠ some (k, w)) →
      dictGet k (List.foldl (parseStep f) d suf) = some v := by
  induction suf with
  | nil =>
    intro d hd _
    simpa using hd
  | cons l rest ih =>
    intro d hd hsuf
    have hstep : dictGet k (parseStep f d l) = some v := by
      unfold parseStep
      cases hf : f l with
      | none => exact hd
      | some kv =>
        obtain ⟨k', w⟩ := kv
        have hne : k' ≠ k := by
          intro he
          exact hsuf l (List.mem_cons_self l rest) w (by rw [hf, he])
        rw [dictGet_dictInsert, if_neg hne]
        exact hd
    have hrest : ∀ l' ∈ rest, ∀ w, f l' ≠ some (k, w) := by
      intro l' hl' w
      exact hsuf l' (List.mem_cons_of_mem l hl') w
    simpa using ih (parseStep f d l) hstep hrest

theorem mem_foldl_parseStep (f : String → Option (String × SampleValue))
    (p : String × SampleValue) :
    ∀ (ls : List String) (d : Snapshot),
      p ∈ List.foldl (parseStep f) d ls → p ∈ d ∨ ∃ l ∈ ls, f l = some p := by
  intro ls
  induction ls with
  | nil =>
    intro d h
    exact Or.inl (by simpa using h)
  | cons l rest ih =>
    intro d h
    rcases ih (parseStep f d l) (by simpa using h) with h1 | h1
    · unfold parseStep at h1
      revert h1
      cases hf : f l with
      | none =>
        intro h1
        exact Or.inl h1
      | some kv =>
        intro h1
        rcases mem_dictInsert h1 with h2 | h2
        · exact Or.inl h2
        · refine Or.inr ⟨l, List.mem_cons_self l rest, ?_⟩
          rw [hf, h2]
    · rcases h1 with ⟨l', hl', hf⟩
      exact Or.inr ⟨l', List.mem_cons_of_mem l hl', hf⟩

theorem parseLinesWith_skip (f : String → Option (String × SampleValue))
    (pre suf : List String) (line : String) (h : f line = none) :
    parseLinesWith f (pre ++ line :: suf) = parseLinesWith f (pre ++ suf) := by
  unfold parseLinesWith
  rw [List.foldl_append, List.foldl_append, List.foldl_cons]
  have : parseStep f (List.foldl (parseStep f) [] pre) line
      = List.foldl (parseStep f) [] pre := by
    unfold parseStep
    rw [h]
  rw [this]

theorem probe_cons (respond : Option (String × String) → AttemptResult)
    (a : Option (String × String)) (l : List (Option (String × String))) :
    probe respond (a :: l) =
      match respond a with
      | .ok body => body
      | _ => probe respond l := rfl

theorem probe_cons_ok (respond : Option (String × String) → AttemptResult)
    (a : Option (String × String)) (l : List (Option (String × String)))
    (b : String) (h : respond a = .ok b) : probe respond (a :: l) = b := by
  rw [probe_cons, h]

theorem probe_append_not_ok (respond : Option (String × String) → AttemptResult)
    (pre : List (Option (String × String))) :
    (∀ a ∈ pre, (respond a).isOk = false) →
      ∀ l, probe respond (pre ++ l) = probe respond l := by
  induction pre with
  | nil =>
    intro _ l
    rfl
  | cons a rest ih =>
    intro h l
    have ha : (respond a).isOk = false := h a (List.mem_cons_self a rest)
    have hrest : ∀ a' ∈ rest, (respond a').isOk = false := by
      intro a' ha'
      exact h a' (List.mem_cons_of_mem a ha')
    rw [List.cons_append, probe_cons]
    cases hr : respond a with
    | ok body =>
      rw [hr] at ha
      simp [AttemptResult.isOk] at ha
    | httpError s => exact ih hrest l
    | timeout => exact ih hrest l
    | connectionError => exact ih hrest l
    | requestError => exact ih hrest l
    | otherError => exact ih hrest l

theorem probe_all_not_ok (respond : Option (String × String) → AttemptResult)
    (l : List (Option (String × String)))
    (h : ∀ a ∈ l, (respond a).isOk = false) : probe respond l = "" := by
  have := probe_append_not_ok respond l h []
  simpa using this

theorem concatBlocks_mem (g : String × SampleValue → String) (d : Snapshot)
    (p : String × SampleValue) (hp : p ∈ d) :
    ∃ s1 s2 : String, concatBlocks (d.map g) = s1 ++ (g p ++ s2) := by
  induction d with
  | nil => cases hp
  | cons q rest ih =>
    rcases List.mem_cons.mp hp with he | hm
    · refine ⟨"", concatBlocks (rest.map g), ?_⟩
      rw [he]
      simp only [List.map_cons, concatBlocks]
      rw [String.empty_append]
    · rcases ih hm with ⟨s1, s2, hs⟩
      refine ⟨g q ++ s1, s2, ?_⟩
      simp only [List.map_cons, concatBlocks]
      rw [hs, String.append_assoc]

theorem lineSampleB_labeled (line : String)
    (hs : pyStrip line = line)
    (h1 : startsWithHash line = false)
    (h2 : line ≠ "")
    (h3 : '\x7b' ∈ line.toList) (h4 : '\x7d' ∈ line.toList)
    (h5 : 0 < line.toList.findIdx (· = '\x7b'))
    (h6 : line.toList.findIdx (· = '\x7b') < line.toList.findIdx (· = '\x7d'))
    (h7 : (pyStripL (line.toList.drop (line.toList.findIdx (· = '\x7d') + 1))).asString ≠ "") :
    lineSampleB line = some (line,
      pyValue ((pyStripL (line.toList.drop (line.toList.findIdx (· = '\x7d') + 1))).asString)) := by
  have hcond : ¬ (startsWithHash line = true ∨ line = "") := by
    rintro (hh | hh)
    · rw [h1] at hh
      cases hh
    · exact h2 hh
  simp only [lineSampleB]
  rw [hs, if_neg hcond, if_pos ⟨h3, h4⟩, if_pos ⟨h5, h6⟩, if_neg h7]

/-! Claim C8: per-attempt timeouts. -/

/-- C8 is refuted: the externally-authenticated variant passes `timeout=10` to
its GET, and 10 is not a low single-digit number of seconds. -/
theorem C8_counterexample : requestTimeoutB = 10 ∧ ¬ requestTimeoutB ≤ 9 := by
  decide

/-- C8 (amended): every upstream GET carries a bounded per-attempt timeout: 2
seconds (single-digit) in the authenticated variant and 10 seconds in the
externally-authenticated variant; both are positive and finite, so no attempt
waits forever. -/
theorem C8_timeouts_bounded :
    requestTimeoutA = 2 ∧ requestTimeoutA ≤ 9 ∧
    requestTimeoutB = 10 ∧ 0 < requestTimeoutA ∧ 0 < requestTimeoutB := by
  decide

/-! Claim C5: rendering of the empty and non-empty Snapshot. -/

/-- C5 is refuted on the line count only: both serializers do return exactly the
fixed down stanza on the empty Snapshot, but that stanza has seven lines, not
six. -/
theorem C5_counterexample :
    get_prometheus_metricsA [] = downStanza ∧
    get_prometheus_metricsB [] = downStanza ∧
    (pySplitlines downStanza).length = 7 ∧
    ¬ (pySplitlines downStanza).length = 6 := by
  refine ⟨rfl, rfl, by decide, by decide⟩

/-- C5 (amended): on the empty Snapshot both serializers return exactly the
fixed SEVEN-line down stanza whose fourth line is `mediamtx_exporter_up 0`;
on every non-empty Snapshot the rendering of either serializer begins with the
`mediamtx_exporter_up` header block with value 1. -/
theorem C5_empty_down_nonempty_up (d : Snapshot) (hne : d ≠ []) :
    get_prometheus_metricsA [] = downStanza ∧
    get_prometheus_metricsB [] = downStanza ∧
    (pySplitlines downStanza).length = 7 ∧
    (pySplitlines downStanza).get? 3 = some "mediamtx_exporter_up 0" ∧
    (pySplitlines upHeader).get? 3 = some "mediamtx_exporter_up 1" ∧
    (∃ rest, get_prometheus_metricsA d = upHeader ++ rest) ∧
    (∃ rest, get_prometheus_metricsB d = upHeader ++ rest) := by
  cases d with
  | nil => cases hne rfl
  | cons p t =>
    exact ⟨rfl, rfl, by decide, by decide, by decide, ⟨_, rfl⟩, ⟨_, rfl⟩⟩

/-- C5 witness at a concrete non-empty Snapshot. -/
theorem C5_witness :
    get_prometheus_metricsA [] = downStanza ∧
    get_prometheus_metricsB [] = downStanza ∧
    (pySplitlines downStanza).length = 7 ∧
    (pySplitlines downStanza).get? 3 = some "mediamtx_exporter_up 0" ∧
    (pySplitlines upHeader).get? 3 = some "mediamtx_exporter_up 1" ∧
    (∃ rest, get_prometheus_metricsA [("paths", SampleValue.num "4")] = upHeader ++ rest) ∧
    (∃ rest, get_prometheus_metricsB [("paths", SampleValue.num "4")] = upHeader ++ rest) :=
  C5_empty_down_nonempty_up [("paths", SampleValue.num "4")] (by decide)

/-! Claim C6: a fetch cycle with no text clears the Snapshot and still serves 200. -/

/-- C6: when the fetch yields no text — in particular when every credential
candidate is rejected with HTTP 401 — the refresh cycle completes, the stored
Snapshot becomes the empty mapping (stale data is cleared), and a GET on
`/metrics` still responds 200. -/
theorem C6_no_text_clears_and_serves
    (respond : Option (String × String) → AttemptResult) (st : Snapshot) :
    ((∀ a ∈ authMethods, respond a = .httpError 401) →
      fetch_real_metricsA respond = "") ∧
    (fetch_real_metricsA respond = "" →
      update_metricsA respond st = [] ∧
      (do_GETA respond st "/metrics").1.status = 200 ∧
      (do_GETA respond st "/metrics").2 = []) := by
  constructor
  · intro h
    apply probe_all_not_ok
    intro a ha
    rw [h a ha]
    rfl
  · intro h
    have hu : update_metricsA respond st = [] := by
      unfold update_metricsA update_from_text
      rw [h]
      rfl
    have hm : do_GETA respond st "/metrics"
        = (⟨200, get_prometheus_metricsA (update_metricsA respond st)⟩,
           update_metricsA respond st) := rfl
    refine ⟨hu, ?_, ?_⟩
    · rw [hm]
    · rw [hm]
      exact hu

/-- C6 witness: the all-401 Fetcher at a concrete prior Snapshot. -/
theorem C6_witness :
    update_metricsA (fun _ => .httpError 401) [("stale", SampleValue.num "1")] = [] ∧
    (do_GETA (fun _ => .httpError 401) [("stale", SampleValue.num "1")] "/metrics").1.status = 200 ∧
    (do_GETA (fun _ => .httpError 401) [("stale", SampleValue.num "1")] "/metrics").2 = [] :=
  (C6_no_text_clears_and_serves (fun _ => .httpError 401) [("stale", SampleValue.num "1")]).2
    ((C6_no_text_clears_and_serves (fun _ => .httpError 401) [("stale", SampleValue.num "1")]).1
      (fun _ _ => rfl))

/-! Claim C7: credential probe order. -/

/-- Fetch outcome used by the C7 counterexample: HTTP 500 for the no-credential
attempt, HTTP 200 for the admin/admin candidate, HTTP 401 for the rest. -/
def respondProbe500 : Option (String × String) → AttemptResult := fun a =>
  if a = none then .httpError 500
  else if a = some ("admin", "admin") then .ok "X"
  else .httpError 401

/-- C7 is refuted on its last clause: a non-401 HTTP error (here a 500 on the
no-credential attempt) does NOT end the probe with a non-success outcome; the
loop continues and returns the body of the next candidate. -/
theorem C7_counterexample :
    respondProbe500 none = .httpError 500 ∧
    fetch_real_metricsA respondProbe500 = "X" ∧
    ¬ fetch_real_metricsA respondProbe500 = "" := by
  refine ⟨rfl, rfl, by decide⟩

/-- C7 (amended): the fetcher tries the candidates in the fixed list order with
the no-credential attempt first, stops at the first candidate whose attempt
returns a body (HTTP 200) and returns that body; EVERY failing attempt — 401 or
any other error — advances to the next candidate, and only exhausting all
candidates yields the empty result. -/
theorem C7_probe_first_success
    (respond : Option (String × String) → AttemptResult) :
    authMethods.head? = some none ∧
    (∀ pre a rest b, authMethods = pre ++ a :: rest →
      (∀ p ∈ pre, (respond p).isOk = false) → respond a = .ok b →
      fetch_real_metricsA respond = b) ∧
    ((∀ c ∈ authMethods, (respond c).isOk = false) →
      fetch_real_metricsA respond = "") := by
  refine ⟨rfl, ?_, ?_⟩
  · intro pre a rest b hsplit hpre hok
    unfold fetch_real_metricsA
    rw [hsplit, probe_append_not_ok respond pre hpre, probe_cons_ok respond a rest b hok]
  · intro h
    exact probe_all_not_ok respond authMethods h

/-- C7 witness: with a timeout on the no-credential attempt and a 200 on
admin/admin, the probe returns the admin/admin body. -/
theorem C7_witness :
    fetch_real_metricsA (fun a => if a = some ("admin", "admin") then .ok "B" else .timeout)
      = "B" :=
  (C7_probe_first_success
      (fun a => if a = some ("admin", "admin") then .ok "B" else .timeout)).2.1
    [none] (some ("admin", "admin"))
    [some ("mediamtx", "mediamtx"), some ("root", "root"), some ("admin", ""), some ("", "")]
    "B" (by decide) (by decide) (by decide)

/-! Claim C9: all-or-nothing Snapshot replacement. -/

/-- C9: after a refresh cycle the stored Snapshot is either the complete parse
of this cycle's fetched text or the empty mapping; the result is independent of
the prior Snapshot, and every binding of the new Snapshot is produced by some
line of the fetched text — no entry of the prior Snapshot can survive into the
new one. Holds for both variants. -/
theorem C9_snapshot_all_or_nothing (text : String) (old old2 : Snapshot) :
    (update_from_text parseA text old = parseA text ∨
      update_from_text parseA text old = []) ∧
    (update_from_text parseB text old = parseB text ∨
      update_from_text parseB text old = []) ∧
    update_from_text parseA text old = update_from_text parseA text old2 ∧
    update_from_text parseB text old = update_from_text parseB text old2 ∧
    (∀ p : String × SampleValue, p ∈ update_from_text parseA text old →
      ∃ l ∈ pySplitlines text, lineSampleA l = some p) ∧
    (∀ p : String × SampleValue, p ∈ update_from_text parseB text old →
      ∃ l ∈ pySplitlines text, lineSampleB l = some p) := by
  have hmem : ∀ (f : String → Option (String × SampleValue))
      (p : String × SampleValue),
      p ∈ update_from_text (fun t => parseLinesWith f (pySplitlines t)) text old →
      ∃ l ∈ pySplitlines text, f l = some p := by
    intro f p hp
    unfold update_from_text at hp
    by_cases ht : text = ""
    · rw [if_pos ht] at hp
      cases hp
    · rw [if_neg ht] at hp
      rcases mem_foldl_parseStep f p (pySplitlines text) [] hp with h | h
      · cases h
      · exact h
  refine ⟨?_, ?_, rfl, rfl, hmem lineSampleA, hmem lineSampleB⟩
  · unfold update_from_text
    by_cases ht : text = ""
    · rw [if_pos ht]
      exact Or.inr rfl
    · rw [if_neg ht]
      exact Or.inl rfl
  · unfold update_from_text
    by_cases ht : text = ""
    · rw [if_pos ht]
      exact Or.inr rfl
    · rw [if_neg ht]
      exact Or.inl rfl

/-- C9 witness at a concrete fetched text and prior Snapshot. -/
theorem C9_witness :
    (update_from_text parseA "a 1" [("old", SampleValue.num "0")] = parseA "a 1" ∨
      update_from_text parseA "a 1" [("old", SampleValue.num "0")] = []) ∧
    (update_from_text parseB "a 1" [("old", SampleValue.num "0")] = parseB "a 1" ∨
      update_from_text parseB "a 1" [("old", SampleValue.num "0")] = []) ∧
    update_from_text parseA "a 1" [("old", SampleValue.num "0")]
      = update_from_text parseA "a 1" [] ∧
    update_from_text parseB "a 1" [("old", SampleValue.num "0")]
      = update_from_text parseB "a 1" [] ∧
    (∀ p : String × SampleValue,
      p ∈ update_from_text parseA "a 1" [("old", SampleValue.num "0")] →
      ∃ l ∈ pySplitlines "a 1", lineSampleA l = some p) ∧
    (∀ p : String × SampleValue,
      p ∈ update_from_text parseB "a 1" [("old", SampleValue.num "0")] →
      ∃ l ∈ pySplitlines "a 1", lineSampleB l = some p) :=
  C9_snapshot_all_or_nothing "a 1" [("old", SampleValue.num "0")] []

/-! Claim C10: duplicate keys, last occurrence wins. -/

/-- C10: when several lines produce the same SampleKey, parsing succeeds and
the Snapshot maps that key to the value of the last such line in input order;
later occurrences silently overwrite earlier ones. Holds for both variants'
parse loops. -/
theorem C10_last_occurrence_wins (pre suf : List String) (line k : String)
    (v : SampleValue) :
    (lineSampleA line = some (k, v) →
      (∀ l ∈ suf, ∀ w, lineSampleA l ≠ some (k, w)) →
      dictGet k (parseLinesWith lineSampleA (pre ++ line :: suf)) = some v) ∧
    (lineSampleB line = some (k, v) →
      (∀ l ∈ suf, ∀ w, lineSampleB l ≠ some (k, w)) →
      dictGet k (parseLinesWith lineSampleB (pre ++ line :: suf)) = some v) := by
  constructor <;>
  · intro hl hsuf
    unfold parseLinesWith
    rw [List.foldl_append, List.foldl_cons]
    apply dictGet_foldl_no_key _ k v suf _ _ hsuf
    unfold parseStep
    rw [hl]
    exact dictGet_dictInsert_self k v _

/-- C10 witness: two lines with key `foo`; the Snapshot holds the second value. -/
theorem C10_witness :
    dictGet "foo" (parseLinesWith lineSampleA (["foo 1"] ++ "foo 2" :: ["bar 3"]))
      = some (SampleValue.num "2") :=
  (C10_last_occurrence_wins ["foo 1"] ["bar 3"] "foo 2" "foo" (SampleValue.num "2")).1
    (by decide)
    (by
      intro l hl w h
      have hl' : l = "bar 3" := by simpa using hl
      subst hl'
      have hb : lineSampleA "bar 3" = some ("bar", SampleValue.num "3") := by decide
      rw [hb] at h
      have : "bar" = "foo" := congrArg (fun o => (o.getD ("", SampleValue.num "0")).1) h
      exact absurd this (by decide))

/-! Claim C1: the SampleKey of a labeled line. -/

/-- C1 is refuted for the authenticated variant: its parser has no labeled
path, so a labeled line with whitespace-free label text is keyed by its first
whitespace token, not by the entire original line; the full-line key is absent
from the resulting Snapshot. -/
theorem C1_counterexample :
    lineSampleA "bar\x7blabel=1\x7d 3.5"
      = some ("bar\x7blabel=1\x7d", SampleValue.num "3.5") ∧
    ¬ "bar\x7blabel=1\x7d" = "bar\x7blabel=1\x7d 3.5" ∧
    dictGet "bar\x7blabel=1\x7d 3.5" (parseA "bar\x7blabel=1\x7d 3.5") = none := by
  refine ⟨by decide, by decide, by decide⟩

/-- C1 (amended): in the variant with the labeled path (B), every stripped
non-comment line containing `\x7b` and `\x7d` — with the first `\x7b` at a
positive index (non-empty name), the first `\x7d` after it, and non-empty
trimmed value text after that `\x7d` — is stored under a SampleKey equal to the
entire line, with the value text parsed via `pyValue` (float if the text
parses, else the raw text). The other variant's parser has no labeled path. -/
theorem C1_labeled_key_is_full_line (line vtext : String)
    (hs : pyStrip line = line)
    (h1 : startsWithHash line = false)
    (h2 : line ≠ "")
    (h3 : '\x7b' ∈ line.toList) (h4 : '\x7d' ∈ line.toList)
    (h5 : 0 < line.toList.findIdx (· = '\x7b'))
    (h6 : line.toList.findIdx (· = '\x7b') < line.toList.findIdx (· = '\x7d'))
    (hv : vtext = (pyStripL (line.toList.drop (line.toList.findIdx (· = '\x7d') + 1))).asString)
    (h7 : vtext ≠ "") :
    lineSampleB line = some (line, pyValue vtext) ∧
    parseLinesWith lineSampleB [line] = [(line, pyValue vtext)] := by
  subst hv
  have hb := lineSampleB_labeled line hs h1 h2 h3 h4 h5 h6 h7
  refine ⟨hb, ?_⟩
  unfold parseLinesWith
  rw [List.foldl_cons, List.foldl_nil]
  unfold parseStep
  rw [hb]
  unfold dictInsert
  simp

/-- C1 witness at a concrete labeled line. -/
theorem C1_witness :
    lineSampleB "a\x7bb=1\x7d 2" = some ("a\x7bb=1\x7d 2", pyValue "2") ∧
    parseLinesWith lineSampleB ["a\x7bb=1\x7d 2"] = [("a\x7bb=1\x7d 2", pyValue "2")] :=
  C1_labeled_key_is_full_line "a\x7bb=1\x7d 2" "2" (by decide) (by decide) (by decide)
    (by decide) (by decide) (by decide) (by decide) (by decide) (by decide)

/-! Claim C2: malformed lines. -/

/-- C2 is refuted: a line with a `\x7b` but no `\x7d` is NOT skipped — it falls
through to the unlabeled two-token path of both parsers and is stored under its
first whitespace token. -/
theorem C2_counterexample :
    dictGet "foo\x7bbar" (parseB "foo\x7bbar 1") = some (SampleValue.num "1") ∧
    dictGet "foo\x7bbar" (parseA "foo\x7bbar 1") = some (SampleValue.num "1") := by
  refine ⟨by decide, by decide⟩

/-- C2 (amended): a line with both braces but malformed structure (empty name
or first `\x7d` not after the first `\x7b`) is skipped by the labeled parser; a
line that does NOT contain both braces is handled by the unlabeled two-token
path of either parser (so an unmatched-brace line is stored when it splits
into exactly two tokens) and skipped when its token count differs from two;
and a skipped line leaves the parsed Snapshot exactly as if it were absent,
with the parse never failing. -/
theorem C2_malformed_line_handling (line : String) (pre suf : List String)
    (hs : pyStrip line = line)
    (h1 : startsWithHash line = false)
    (h2 : line ≠ "") :
    (('\x7b' ∈ line.toList ∧ '\x7d' ∈ line.toList ∧
        ¬ (0 < line.toList.findIdx (· = '\x7b') ∧
            line.toList.findIdx (· = '\x7b') < line.toList.findIdx (· = '\x7d'))) →
      lineSampleB line = none) ∧
    (¬ ('\x7b' ∈ line.toList ∧ '\x7d' ∈ line.toList) →
      lineSampleB line = lineSampleA line) ∧
    ((pySplit line).length ≠ 2 → lineSampleA line = none) ∧
    (lineSampleB line = none →
      parseLinesWith lineSampleB (pre ++ line :: suf)
        = parseLinesWith lineSampleB (pre ++ suf)) ∧
    (lineSampleA line = none →
      parseLinesWith lineSampleA (pre ++ line :: suf)
        = parseLinesWith lineSampleA (pre ++ suf)) := by
  have hcond : ¬ (startsWithHash line = true ∨ line = "") := by
    rintro (hh | hh)
    · rw [h1] at hh
      cases hh
    · exact h2 hh
  have hA : lineSampleA line = (match pySplit line with
      | [k, v] => some (k, pyValue v)
      | _ => none) := by
    simp only [lineSampleA]
    rw [hs, if_neg hcond]
  refine ⟨?_, ?_, ?_, ?_, ?_⟩
  · rintro ⟨hb1, hb2, hno⟩
    simp only [lineSampleB]
    rw [hs, if_neg hcond, if_pos ⟨hb1, hb2⟩, if_neg hno]
  · intro hnb
    have hB : lineSampleB line = (match pySplit line with
        | [k, v] => some (k, pyValue v)
        | _ => none) := by
      simp only [lineSampleB]
      rw [hs, if_neg hcond, if_neg hnb]
    rw [hA, hB]
  · intro hlen
    rw [hA]
    cases hsp : pySplit line with
    | nil => rfl
    | cons a t =>
      cases t with
      | nil => rfl
      | cons b t2 =>
        cases t2 with
        | nil =>
          rw [hsp] at hlen
          simp at hlen
        | cons c t3 => rfl
  · intro h
    exact parseLinesWith_skip lineSampleB pre suf line h
  · intro h
    exact parseLinesWith_skip lineSampleA pre suf line h

/-- C2 witness at a concrete three-token line. -/
theorem C2_witness :
    (('\x7b' ∈ "a 1 2".toList ∧ '\x7d' ∈ "a 1 2".toList ∧
        ¬ (0 < "a 1 2".toList.findIdx (· = '\x7b') ∧
            "a 1 2".toList.findIdx (· = '\x7b') < "a 1 2".toList.findIdx (· = '\x7d'))) →
      lineSampleB "a 1 2" = none) ∧
    (¬ ('\x7b' ∈ "a 1 2".toList ∧ '\x7d' ∈ "a 1 2".toList) →
      lineSampleB "a 1 2" = lineSampleA "a 1 2") ∧
    ((pySplit "a 1 2").length ≠ 2 → lineSampleA "a 1 2" = none) ∧
    (lineSampleB "a 1 2" = none →
      parseLinesWith lineSampleB (["x 1"] ++ "a 1 2" :: ["y 2"])
        = parseLinesWith lineSampleB (["x 1"] ++ ["y 2"])) ∧
    (lineSampleA "a 1 2" = none →
      parseLinesWith lineSampleA (["x 1"] ++ "a 1 2" :: ["y 2"])
        = parseLinesWith lineSampleA (["x 1"] ++ ["y 2"])) :=
  C2_malformed_line_handling "a 1 2" ["x 1"] ["y 2"] (by decide) (by decide) (by decide)

/-! Claim C4: round-trip of labeled lines. -/

/-- C4 is refuted for the authenticated variant: its serializer has no verbatim
path, so a Snapshot keyed by a full labeled line is re-emitted as a sanitized
HELP/TYPE/value triple and the exact original line is not among the output
lines. -/
theorem C4_counterexample :
    get_prometheus_metricsA [("bar\x7bl=1\x7d 3.5", SampleValue.num "3.5")]
      = upHeader ++ helpTypeTriple "bar\x7bl=1\x7d 3.5" (SampleValue.num "3.5") ∧
    ¬ "bar\x7bl=1\x7d 3.5" ∈ pySplitlines (get_prometheus_metricsA
        [("bar\x7bl=1\x7d 3.5", SampleValue.num "3.5")]) := by
  refine ⟨by decide, by decide⟩

/-- C4 (amended): in the externally-authenticated variant (B), the parser keys
an accepted labeled line by the exact (stripped) original line, the serializer
emits that key verbatim as its own line with no HELP/TYPE lines added for it,
and the rendering of any Snapshot containing that key contains the exact
original line followed by a newline. -/
theorem C4_labeled_verbatim_roundtrip (line : String) (v : SampleValue) (d : Snapshot)
    (hs : pyStrip line = line)
    (h1 : startsWithHash line = false)
    (h2 : line ≠ "")
    (h3 : '\x7b' ∈ line.toList) (h4 : '\x7d' ∈ line.toList)
    (h5 : 0 < line.toList.findIdx (· = '\x7b'))
    (h6 : line.toList.findIdx (· = '\x7b') < line.toList.findIdx (· = '\x7d'))
    (h7 : (pyStripL (line.toList.drop (line.toList.findIdx (· = '\x7d') + 1))).asString ≠ "")
    (hmem : (line, v) ∈ d) :
    (∃ w, lineSampleB line = some (line, w)) ∧
    sampleBlockB line v = line ++ "\n" ∧
    (∃ s1 s2, get_prometheus_metricsB d = s1 ++ ((line ++ "\n") ++ s2)) := by
  have hblock : sampleBlockB line v = line ++ "\n" := by
    unfold sampleBlockB
    rw [if_pos ⟨h3, h4⟩]
  refine ⟨⟨_, lineSampleB_labeled line hs h1 h2 h3 h4 h5 h6 h7⟩, hblock, ?_⟩
  rcases concatBlocks_mem (fun p => sampleBlockB p.1 p.2) d (line, v) hmem with ⟨s1, s2, hcb⟩
  simp only [] at hcb
  rw [hblock] at hcb
  refine ⟨upHeader ++ s1, s2, ?_⟩
  cases d with
  | nil => cases hmem
  | cons p t =>
    show upHeader ++ concatBlocks ((p :: t).map fun q => sampleBlockB q.1 q.2)
        = (upHeader ++ s1) ++ ((line ++ "\n") ++ s2)
    rw [hcb, String.append_assoc, String.append_assoc upHeader s1]

/-- C4 witness at a concrete labeled line and singleton Snapshot. -/
theorem C4_witness :
    (∃ w, lineSampleB "c\x7bd=2\x7d 5" = some ("c\x7bd=2\x7d 5", w)) ∧
    sampleBlockB "c\x7bd=2\x7d 5" (SampleValue.num "5") = "c\x7bd=2\x7d 5" ++ "\n" ∧
    (∃ s1 s2, get_prometheus_metricsB [("c\x7bd=2\x7d 5", SampleValue.num "5")]
      = s1 ++ (("c\x7bd=2\x7d 5" ++ "\n") ++ s2)) :=
  C4_labeled_verbatim_roundtrip "c\x7bd=2\x7d 5" (SampleValue.num "5")
    [("c\x7bd=2\x7d 5", SampleValue.num "5")] (by decide) (by decide) (by decide)
    (by decide) (by decide) (by decide) (by decide) (by decide) (by decide)

end MediaMTX
